import Mathlib

/-!
Verification development for the DocuChat-AI retrieval-augmented chat pipeline.

The Python modules under src/ are shallowly embedded: documents, retrieval
policies, the LLM wrapper, and the chatbot session state become plain Lean
definitions.  External collaborators (the Chroma vector store, the Ollama
language model, the langchain text splitter) are modelled from the spec of
their interfaces and passed in as parameters: the store is a query-indexed
ranked list of records sorted by ascending distance, the language model is a
function from prompt to a result or an error, the splitter is a function from
a document to its chunk list.  Floating point numbers are modelled as
rationals.
-/

/-- A langchain Document: page content plus the metadata fields the pipeline
reads (filename and page). -/
structure Document where
  page_content : String
  filename : String
  page : Nat
deriving DecidableEq, Repr

/-- A chat message, either from the human or from the assistant
(langchain HumanMessage / AIMessage). -/
inductive Message where
  | human (content : String)
  | ai (content : String)
deriving DecidableEq, Repr

/-- The session statistics dictionary of RAGChatbot. -/
structure Stats where
  total_queries : Nat
  successful_retrievals : Nat
  average_context_length : ℚ
deriving DecidableEq, Repr

/-- One entry of the sources list returned by RAGChatbot.query. -/
structure Source where
  filename : String
  page : Nat
  content_preview : String
deriving DecidableEq, Repr

/-- The dictionary returned by RAGChatbot.query.  The failure dictionary has
no context and no retrieved_docs key, hence the Option fields. -/
structure QueryResult where
  answer : String
  sources : List Source
  context : Option String
  retrieved_docs : Option Nat
  success : Bool
deriving DecidableEq, Repr

/-- Modelled from the spec: the external Chroma vector store.  For each query
text it holds the full list of records ranked by ascending distance (the
spec contract of query: the k nearest records by vector distance, ascending),
and a marginal-relevance scoring function used by the maximal-marginal-
relevance search (the weighted combination of relevance to the query and
dissimilarity to the already selected units). -/
structure Chroma where
  ranking : String → List (Document × ℚ)
  mmrScore : String → Document → List Document → ℚ

/-- Chroma similarity_search_with_score: the k nearest records with their
distances, ascending. -/
def Chroma.similarity_search_with_score (s : Chroma) (query : String) (k : Nat) :
    List (Document × ℚ) :=
  (s.ranking query).take k

/-- Chroma similarity_search: the k nearest documents, ascending by
distance. -/
def Chroma.similarity_search (s : Chroma) (query : String) (k : Nat) :
    List Document :=
  ((s.ranking query).take k).map Prod.fst

/-- One greedy step sequence of maximal marginal relevance selection: pick
the candidate maximizing the marginal score against the already selected
units, remove it from the pool, repeat. -/
def mmrGo (score : Document → List Document → ℚ) :
    Nat → List Document → List Document → List Document
  | 0, _, selected => selected.reverse
  | n + 1, pool, selected =>
    match pool.argmax (fun c => score c selected) with
    | none => selected.reverse
    | some c => mmrGo score n (pool.erase c) (c :: selected)

/-- Modelled from the spec: langchain Chroma max_marginal_relevance_search.
It first retrieves the fetch_k nearest candidates by vector distance and then
greedily selects k of them maximizing the marginal-relevance score. -/
def Chroma.max_marginal_relevance_search (s : Chroma) (query : String)
    (k fetch_k : Nat) : List Document :=
  let pool := ((s.ranking query).take fetch_k).map Prod.fst
  mmrGo (s.mmrScore query) k pool []

/-- VectorStoreManager from src/embeddings.py.  The persist directory
contents are modelled by the field disk; the in-memory handle by
vector_store. -/
structure VectorStoreManager where
  vector_store : Option Chroma
  disk : Option Chroma

/-- VectorStoreManager.load_vector_store: if the persist directory exists the
store is loaded into the in-memory handle and returned, otherwise None. -/
def VectorStoreManager.load_vector_store (m : VectorStoreManager) :
    VectorStoreManager × Option Chroma :=
  match m.disk with
  | none => (m, none)
  | some s => ({ m with vector_store := some s }, some s)

/-- VectorStoreManager.create_vector_store: building the Chroma store from
the documents is external work, so the resulting store is a parameter; the
manager keeps it in memory and persists it. -/
def VectorStoreManager.create_vector_store (m : VectorStoreManager)
    (store : Chroma) : VectorStoreManager :=
  { m with vector_store := some store, disk := some store }

/-- VectorStoreManager.delete_vector_store: removes the persist directory and
clears the in-memory handle. -/
def VectorStoreManager.delete_vector_store (_ : VectorStoreManager) :
    VectorStoreManager :=
  { vector_store := none, disk := none }

/-- AdvancedRetriever from src/retriever.py: carries the configured default
k. -/
structure AdvancedRetriever where
  k : Nat
deriving DecidableEq, Repr

/-- AdvancedRetriever.retrieve: basic top-k retrieval. -/
def AdvancedRetriever.retrieve (r : AdvancedRetriever) (s : Chroma)
    (query : String) (k : Option Nat) : List Document :=
  let kk := k.getD r.k
  s.similarity_search query kk

/-- AdvancedRetriever.retrieve_with_scores: top-k retrieval with distances. -/
def AdvancedRetriever.retrieve_with_scores (r : AdvancedRetriever) (s : Chroma)
    (query : String) (k : Option Nat) : List (Document × ℚ) :=
  let kk := k.getD r.k
  s.similarity_search_with_score query kk

/-- AdvancedRetriever.retrieve_with_threshold: top-k retrieval with scores,
then keep only the documents whose distance is at most 1 - score_threshold. -/
def AdvancedRetriever.retrieve_with_threshold (r : AdvancedRetriever)
    (s : Chroma) (query : String) (k : Option Nat) (score_threshold : ℚ) :
    List Document :=
  let kk := k.getD r.k
  let results := s.similarity_search_with_score query kk
  (results.filter (fun p => p.2 ≤ 1 - score_threshold)).map Prod.fst

/-- AdvancedRetriever.retrieve_diverse: maximal marginal relevance search
with fetch_k three times k; an absent store yields the empty list. -/
def AdvancedRetriever.retrieve_diverse (r : AdvancedRetriever)
    (m : VectorStoreManager) (query : String) (k : Option Nat) :
    List Document :=
  let kk := k.getD r.k
  match m.vector_store with
  | some s => s.max_marginal_relevance_search query kk (kk * 3)
  | none => []

/-- AdvancedRetriever.get_context_string: renders the retrieved documents
into one context block, each prefixed with a 1-based ordinal, its source
filename and its page, separated by an explicit divider. -/
def get_context_string (documents : List Document) : String :=
  String.intercalate "\n---\n"
    (documents.enum.map (fun p =>
      "[Document " ++ toString (p.1 + 1) ++ "] (Source: " ++ p.2.filename ++
        ", Page: " ++ toString p.2.page ++ ")\n" ++ p.2.page_content ++ "\n"))

/-- LLMManager from src/llm.py.  The external Ollama model is the function
llm from a prompt to either the generated text or an error message. -/
structure LLMManager where
  llm : String → Except String String

/-- The RAG system prompt of LLMManager, with the context substituted in. -/
def getSystemPrompt (context : String) : String :=
  "You are a helpful AI assistant that answers questions based on the provided context.\n\nInstructions:\n1. Answer the question using ONLY the information from the context below\n2. If the context does not contain enough information, say so\n3. Be concise but comprehensive\n4. Cite the source document when possible\n5. If asked about something not in the context, politely decline and explain why\n\nContext:\n"
    ++ context ++
    "\n\nRemember: Only use information from the context above. Do not use your general knowledge."

/-- Renders the last four history messages as the Human / Assistant
transcript used inside the prompts. -/
def historyText (chat_history : List Message) : String :=
  (chat_history.drop (chat_history.length - 4)).foldl
    (fun acc msg =>
      match msg with
      | Message.human c => acc ++ "Human: " ++ c ++ "\n"
      | Message.ai c => acc ++ "Assistant: " ++ c ++ "\n") ""

/-- The full grounded prompt built identically by generate_answer and by
generate_answer_streaming: system instructions with context, then the recent
conversation when a non-empty history is supplied, then the question. -/
def buildRagPrompt (question context : String)
    (chat_history : Option (List Message)) : String :=
  let base := getSystemPrompt context ++ "\n\n"
  let base :=
    match chat_history with
    | some h =>
        if h.isEmpty then base
        else base ++ "Previous conversation:\n" ++ historyText h ++ "\n"
    | none => base
  base ++ "Human: " ++ question ++ "\n\nAssistant:"

/-- LLMManager.generate_answer: invoke the model on the grounded prompt; an
exception becomes an apologetic answer string. -/
def LLMManager.generate_answer (m : LLMManager) (question context : String)
    (chat_history : Option (List Message)) : String :=
  match m.llm (buildRagPrompt question context chat_history) with
  | Except.ok response => response.trim
  | Except.error e =>
      "Error generating response: " ++ e ++
        "\n\nPlease make sure Ollama is running."

/-- Joins words back with single spaces the way the streaming generator
yields them: every word but the last carries a trailing space. -/
def spaceChunks : List String → List String
  | [] => []
  | [w] => [w]
  | w :: ws => (w ++ " ") :: spaceChunks ws

/-- LLMManager.generate_answer_streaming: the finite sequence of fragments
the generator yields.  On success the response is split into whitespace
separated words and re-emitted word by word; on an exception a single error
fragment is yielded. -/
def LLMManager.generate_answer_streaming (m : LLMManager)
    (question context : String) (chat_history : Option (List Message)) :
    List String :=
  match m.llm (buildRagPrompt question context chat_history) with
  | Except.ok response =>
      spaceChunks ((response.split Char.isWhitespace).filter
        (fun w => !w.isEmpty))
  | Except.error e => ["Error: " ++ e]

/-- The rephrase prompt of LLMManager.rephrase_question. -/
def rephrasePrompt (question : String) (chat_history : List Message) :
    String :=
  "Given the conversation history, rephrase the follow-up question to be a standalone question.\n\nChat History:\n"
    ++ historyText chat_history ++
    "\n\nFollow-up Question: " ++ question ++
    "\n\nRephrased Standalone Question:"

/-- LLMManager.rephrase_question: with an empty history the question is
returned as is; otherwise the model is asked for a standalone rewrite and
any exception falls back to the original question. -/
def LLMManager.rephrase_question (m : LLMManager) (question : String)
    (chat_history : List Message) : String :=
  if chat_history.isEmpty then question
  else
    match m.llm (rephrasePrompt question chat_history) with
    | Except.ok response => response.trim
    | Except.error _ => question

/-- DocumentIngestion.chunk_documents from src/ingestion.py.  Splitting one
document into chunks is done by the external langchain splitter, modelled
from the spec as the function split applied per document in order (its
split_documents flattens the per-document chunk lists in order); the
enumeration then stamps each chunk with its chunk_id metadata, the global
emission index over the whole batch. -/
def DocumentIngestion.chunk_documents (split : Document → List Document)
    (documents : List Document) : List (Document × Nat) :=
  ((documents.map split).flatten).enum.map (fun p => (p.2, p.1))

/-- RAGChatbot from src/chatbot.py: the session state. -/
structure RAGChatbot where
  vs_manager : VectorStoreManager
  retriever : AdvancedRetriever
  llm_manager : LLMManager
  chat_history : List Message
  stats : Stats

/-- The retrieval dispatch inside RAGChatbot.query: diverse and threshold go
to their dedicated policies, anything else to basic retrieval (threshold is
called with its default score_threshold of 0.7). -/
def RAGChatbot.retrieveDocuments (bot : RAGChatbot) (vsm : VectorStoreManager)
    (store : Chroma) (retrieval_method : String) (search_query : String)
    (k : Option Nat) : List Document :=
  if retrieval_method = "diverse" then
    bot.retriever.retrieve_diverse vsm search_query k
  else if retrieval_method = "threshold" then
    bot.retriever.retrieve_with_threshold store search_query k (7 / 10)
  else
    bot.retriever.retrieve store search_query k

/-- RAGChatbot.query: the main non-streaming pipeline.  It first counts the
query, then loads the vector store if absent; with no store it returns the
soft failure result.  Otherwise it optionally rephrases the question against
the history, retrieves, counts a successful retrieval when documents came
back, folds the context length into the running average (dividing by the
already incremented total query count), generates the answer, appends the
question/answer pair to the history trimmed to the last 10 messages, and
returns answer, sources, context and flags. -/
def RAGChatbot.query (bot : RAGChatbot) (question : String)
    (use_history : Bool) (retrieval_method : String) (k : Option Nat) :
    RAGChatbot × QueryResult :=
  let stats0 : Stats :=
    { bot.stats with total_queries := bot.stats.total_queries + 1 }
  let vsm :=
    match bot.vs_manager.vector_store with
    | some _ => bot.vs_manager
    | none => (bot.vs_manager.load_vector_store).1
  match vsm.vector_store with
  | none =>
      ({ bot with vs_manager := vsm, stats := stats0 },
       { answer := "No knowledge base found. Please initialize with documents first.",
         sources := [], context := none, retrieved_docs := none,
         success := false })
  | some store =>
      let search_query :=
        if use_history && !bot.chat_history.isEmpty then
          bot.llm_manager.rephrase_question question bot.chat_history
        else question
      let documents :=
        bot.retrieveDocuments vsm store retrieval_method search_query k
      let stats1 : Stats :=
        if documents.isEmpty then stats0
        else { stats0 with
                 successful_retrievals := stats0.successful_retrievals + 1 }
      let context := get_context_string documents
      let stats2 : Stats :=
        { stats1 with
            average_context_length :=
              (stats1.average_context_length *
                  ((stats1.total_queries : ℚ) - 1) +
                (context.length : ℚ)) / (stats1.total_queries : ℚ) }
      let hist_for_llm := if use_history then some bot.chat_history else none
      let answer := bot.llm_manager.generate_answer question context hist_for_llm
      let new_history :=
        if use_history then
          let h2 := bot.chat_history ++
            [Message.human question, Message.ai answer]
          if h2.length > 10 then h2.drop (h2.length - 10) else h2
        else bot.chat_history
      let sources := documents.map (fun d =>
        ({ filename := d.filename, page := d.page,
           content_preview := d.page_content.take 150 ++ "..." } : Source))
      ({ bot with
           vs_manager := vsm
           chat_history := new_history
           stats := stats2 },
       { answer := answer
         sources := sources
         context := some context
         retrieved_docs := some documents.length
         success := true })

/-- The effects of the RAGChatbot.query_streaming generator up to (but not
including) its post-loop history update: the store is loaded if absent (an
absent store makes the underlying similarity search raise, returned here as
the error case), the question is optionally rephrased, documents are
retrieved, and the fragment stream is produced together with the
concatenated full answer.  The returned chatbot is the state visible to a
caller that abandons the stream: neither history nor statistics have been
touched. -/
def RAGChatbot.query_streaming_run (bot : RAGChatbot) (question : String)
    (use_history : Bool) (k : Option Nat) :
    Except String (RAGChatbot × List (String × List String) × String) :=
  let vsm :=
    match bot.vs_manager.vector_store with
    | some _ => bot.vs_manager
    | none => (bot.vs_manager.load_vector_store).1
  let bot1 := { bot with vs_manager := vsm }
  let search_query :=
    if use_history && !bot1.chat_history.isEmpty then
      bot1.llm_manager.rephrase_question question bot1.chat_history
    else question
  match vsm.vector_store with
  | none => Except.error "No vector store available. Create one first."
  | some store =>
      let documents := bot1.retriever.retrieve store search_query k
      let context := get_context_string documents
      let hist_for_llm := if use_history then some bot1.chat_history else none
      let chunks :=
        bot1.llm_manager.generate_answer_streaming question context hist_for_llm
      let outs := chunks.map (fun c => (c, documents.map (fun d => d.filename)))
      Except.ok (bot1, outs, String.join chunks)

/-- RAGChatbot.query_streaming when the caller drains the stream to
exhaustion: after the last fragment the complete question/answer pair is
appended to the history (with no trimming and no statistics update). -/
def RAGChatbot.query_streaming_drained (bot : RAGChatbot) (question : String)
    (use_history : Bool) (k : Option Nat) : Except String RAGChatbot :=
  match bot.query_streaming_run question use_history k with
  | Except.error e => Except.error e
  | Except.ok (b, _, full_answer) =>
      Except.ok
        (if use_history then
          { b with chat_history := b.chat_history ++
              [Message.human question, Message.ai full_answer] }
        else b)

/-- RAGChatbot.query_streaming when the caller stops consuming before
exhaustion: the generator body after the loop never runs, so only the store
load is visible. -/
def RAGChatbot.query_streaming_abandoned (bot : RAGChatbot)
    (question : String) (use_history : Bool) (k : Option Nat) :
    Except String RAGChatbot :=
  (bot.query_streaming_run question use_history k).map (fun p => p.1)

/-- RAGChatbot.clear_history. -/
def RAGChatbot.clear_history (bot : RAGChatbot) : RAGChatbot :=
  { bot with chat_history := [] }

/-- RAGChatbot.reset_knowledge_base: deletes the vector store, clears the
history and zeroes the statistics. -/
def RAGChatbot.reset_knowledge_base (bot : RAGChatbot) : RAGChatbot :=
  let bot1 := { bot with vs_manager := bot.vs_manager.delete_vector_store }
  let bot2 := bot1.clear_history
  { bot2 with
      stats := { total_queries := 0, successful_retrievals := 0,
                 average_context_length := 0 } }

/-- The arguments of one RAGChatbot.query call. -/
structure QueryCall where
  question : String
  use_history : Bool
  retrieval_method : String
  k : Option Nat

/-- Runs a sequence of non-streaming queries against a session, collecting
the per-query results. -/
def RAGChatbot.runTrace (bot : RAGChatbot) :
    List QueryCall → RAGChatbot × List QueryResult
  | [] => (bot, [])
  | c :: cs =>
      let out := bot.query c.question c.use_history c.retrieval_method c.k
      let rest := out.1.runTrace cs
      (rest.1, out.2 :: rest.2)

/-- The context length a query result contributes to the running average: the
length of its context block, or 0 when the result carries no context (the
soft failure path). -/
def ctxLen (r : QueryResult) : ℚ :=
  match r.context with
  | some c => (c.length : ℚ)
  | none => 0

/-! Concrete sample data used by witnesses and counterexamples. -/

/-- A sample document. -/
def sampleDoc : Document :=
  { page_content := "hello", filename := "a.txt", page := 1 }

/-- A second sample document. -/
def sampleDoc2 : Document :=
  { page_content := "world", filename := "b.txt", page := 1 }

/-- A sample store ranking the two sample documents at distances 0 and 1. -/
def sampleChroma : Chroma :=
  { ranking := fun _ => [(sampleDoc, 0), (sampleDoc2, 1)]
    mmrScore := fun _ _ _ => 0 }

/-- A language model that always answers. -/
def sampleLLM : LLMManager := { llm := fun _ => Except.ok "fine" }

/-- A language model whose backend is down: every call errors. -/
def downLLM : LLMManager := { llm := fun _ => Except.error "down" }

/-- Zeroed session statistics. -/
def emptyStats : Stats :=
  { total_queries := 0, successful_retrievals := 0,
    average_context_length := 0 }

/-- A fresh uninitialized session: no store in memory, none on disk. -/
def freshBot : RAGChatbot :=
  { vs_manager := { vector_store := none, disk := none }
    retriever := { k := 4 }
    llm_manager := sampleLLM
    chat_history := []
    stats := emptyStats }

/-- A session whose knowledge base is loaded. -/
def readyBot : RAGChatbot :=
  { freshBot with
      vs_manager := { vector_store := some sampleChroma
                      disk := some sampleChroma } }

/-! Helper lemmas about the greedy maximal-marginal-relevance selection. -/

/-- Every unit the greedy MMR selection emits comes from the candidate pool
or from the already selected units. -/
theorem mmrGo_mem (score : Document → List Document → ℚ) :
    ∀ (n : Nat) (pool selected : List Document),
      ∀ x ∈ mmrGo score n pool selected, x ∈ pool ∨ x ∈ selected := by
  intro n
  induction n with
  | zero =>
      intro pool sel x hx
      right
      simpa [mmrGo] using hx
  | succ n ih =>
      intro pool sel x hx
      rw [mmrGo] at hx
      cases hagm : pool.argmax (fun c => score c sel) with
      | none =>
          rw [hagm] at hx
          right
          simpa using hx
      | some c =>
          rw [hagm] at hx
          rcases ih _ _ x hx with h | h
          · exact Or.inl (List.mem_of_mem_erase h)
          · rcases List.mem_cons.mp h with rfl | h2
            · exact Or.inl (List.argmax_mem hagm)
            · exact Or.inr h2

/-- The greedy MMR selection never emits duplicates when the pool has none
and the already selected units are distinct and disjoint from the pool. -/
theorem mmrGo_nodup (score : Document → List Document → ℚ) :
    ∀ (n : Nat) (pool selected : List Document), pool.Nodup →
      selected.Nodup → (∀ x ∈ selected, x ∉ pool) →
      (mmrGo score n pool selected).Nodup := by
  intro n
  induction n with
  | zero =>
      intro pool sel _ hs _
      simpa [mmrGo] using hs
  | succ n ih =>
      intro pool sel hp hs hd
      rw [mmrGo]
      cases hagm : pool.argmax (fun c => score c sel) with
      | none => simpa using hs
      | some c =>
          have hcpool : c ∈ pool := List.argmax_mem hagm
          have hcsel : c ∉ sel := fun h => hd c h hcpool
          refine ih _ _ (hp.erase c) (List.nodup_cons.mpr ⟨hcsel, hs⟩) ?_
          intro x hx
          rcases List.mem_cons.mp hx with rfl | h2
          · exact hp.not_mem_erase
          · exact fun hmem => hd x h2 (List.mem_of_mem_erase hmem)

/-- C4: for every query string, every k and every similarity threshold, the
units returned by the threshold retrieval policy form a sublist of the units
returned by basic retrieval with the same query and k, so every one of them
also appears in the unfiltered top-k and the basic ranking order is
preserved. -/
theorem retrieve_with_threshold_sublist_of_retrieve (r : AdvancedRetriever)
    (s : Chroma) (q : String) (k : Option Nat) (t : ℚ) :
    (r.retrieve_with_threshold s q k t).Sublist (r.retrieve s q k) := by
  unfold AdvancedRetriever.retrieve_with_threshold AdvancedRetriever.retrieve
    Chroma.similarity_search Chroma.similarity_search_with_score
  exact (List.filter_sublist _).map Prod.fst

/-- C5: for every query and every 0-to-1 similarity threshold t, threshold
retrieval returns exactly those documents of the top-k scored records whose
distance is at most 1 - t, and it returns at most k units (possibly zero,
which is an ordinary result, not an error). -/
theorem retrieve_with_threshold_exact (r : AdvancedRetriever) (s : Chroma)
    (q : String) (k : Option Nat) (t : ℚ) (ht0 : 0 ≤ t) (ht1 : t ≤ 1) :
    (∀ d, d ∈ r.retrieve_with_threshold s q k t ↔
        ∃ p ∈ s.similarity_search_with_score q (k.getD r.k),
          p.2 ≤ 1 - t ∧ p.1 = d) ∧
    (r.retrieve_with_threshold s q k t).length ≤ k.getD r.k := by
  constructor
  · intro d
    simp only [AdvancedRetriever.retrieve_with_threshold, List.mem_map,
      List.mem_filter, decide_eq_true_eq]
    constructor
    · rintro ⟨p, ⟨hmem, hle⟩, rfl⟩
      exact ⟨p, hmem, hle, rfl⟩
    · rintro ⟨p, hmem, hle, rfl⟩
      exact ⟨p, ⟨hmem, hle⟩, rfl⟩
  · calc (r.retrieve_with_threshold s q k t).length
        ≤ (s.similarity_search_with_score q (k.getD r.k)).length := by
          simpa [AdvancedRetriever.retrieve_with_threshold]
            using List.length_filter_le _ _
      _ ≤ k.getD r.k := by
          simp only [Chroma.similarity_search_with_score, List.length_take]
          exact min_le_left _ _

/-- Witness for C5 at a concrete store and threshold 1 (distance cutoff 0):
only the distance-0 document survives. -/
theorem retrieve_with_threshold_exact_witness :
    (0 : ℚ) ≤ 1 ∧ (1 : ℚ) ≤ 1 ∧
    ((∀ d, d ∈ AdvancedRetriever.retrieve_with_threshold { k := 4 }
          sampleChroma "q" none 1 ↔
        ∃ p ∈ sampleChroma.similarity_search_with_score "q"
            ((none : Option Nat).getD ({ k := 4 } : AdvancedRetriever).k),
          p.2 ≤ 1 - 1 ∧ p.1 = d) ∧
      (AdvancedRetriever.retrieve_with_threshold { k := 4 } sampleChroma "q"
          none 1).length ≤ (none : Option Nat).getD
            ({ k := 4 } : AdvancedRetriever).k) :=
  ⟨by norm_num, by norm_num,
    retrieve_with_threshold_exact { k := 4 } sampleChroma "q" none 1
      (by norm_num) (by norm_num)⟩

/-- C6: with a present store, diverse retrieval runs the maximal marginal
relevance search over the candidate pool of the fetch_k = 3k nearest records
(so fetch_k is at least k), every returned unit comes from that pool, and
when the ranked records are distinct the returned units contain no
duplicates. -/
theorem retrieve_diverse_pool_and_nodup (r : AdvancedRetriever)
    (m : VectorStoreManager) (s : Chroma) (q : String) (kk : Nat)
    (hs : m.vector_store = some s)
    (hnd : ((s.ranking q).map Prod.fst).Nodup) :
    r.retrieve_diverse m q (some kk) =
        s.max_marginal_relevance_search q kk (kk * 3) ∧
    kk ≤ kk * 3 ∧
    (∀ d ∈ r.retrieve_diverse m q (some kk),
        d ∈ ((s.ranking q).take (kk * 3)).map Prod.fst) ∧
    (r.retrieve_diverse m q (some kk)).Nodup := by
  have heq : r.retrieve_diverse m q (some kk) =
      s.max_marginal_relevance_search q kk (kk * 3) := by
    simp [AdvancedRetriever.retrieve_diverse, hs]
  have hpool : (((s.ranking q).take (kk * 3)).map Prod.fst).Nodup :=
    List.Nodup.sublist ((List.take_sublist _ _).map Prod.fst) hnd
  refine ⟨heq, by omega, ?_, ?_⟩
  · intro d hd
    rw [heq] at hd
    unfold Chroma.max_marginal_relevance_search at hd
    rcases mmrGo_mem _ _ _ _ d hd with h | h
    · exact h
    · simp at h
  · rw [heq]
    unfold Chroma.max_marginal_relevance_search
    exact mmrGo_nodup _ _ _ _ hpool List.nodup_nil (by simp)

/-- Witness for C6 at the sample manager and k = 1. -/
theorem retrieve_diverse_pool_and_nodup_witness :
    (readyBot.vs_manager.vector_store = some sampleChroma) ∧
    (((sampleChroma.ranking "q").map Prod.fst).Nodup) ∧
    (AdvancedRetriever.retrieve_diverse { k := 4 } readyBot.vs_manager "q"
          (some 1) =
        sampleChroma.max_marginal_relevance_search "q" 1 (1 * 3) ∧
      1 ≤ 1 * 3 ∧
      (∀ d ∈ AdvancedRetriever.retrieve_diverse { k := 4 }
            readyBot.vs_manager "q" (some 1),
          d ∈ ((sampleChroma.ranking "q").take (1 * 3)).map Prod.fst) ∧
      (AdvancedRetriever.retrieve_diverse { k := 4 } readyBot.vs_manager "q"
          (some 1)).Nodup) :=
  ⟨rfl, by decide,
    retrieve_diverse_pool_and_nodup { k := 4 } readyBot.vs_manager
      sampleChroma "q" 1 rfl (by decide)⟩

/-- C9 (amended): chunk positions are the global emission order over the
whole batch: reading off the chunk_id metadata of a multi-document batch
gives 0, 1, 2, ... across all documents (continuing over document
boundaries, not restarting per source document), while the chunks themselves
are the per-document chunk lists flattened in order. -/
theorem chunk_documents_positions (split : Document → List Document)
    (documents : List Document) :
    (DocumentIngestion.chunk_documents split documents).map Prod.snd =
      List.range ((documents.map split).flatten.length) ∧
    (DocumentIngestion.chunk_documents split documents).map Prod.fst =
      (documents.map split).flatten := by
  unfold DocumentIngestion.chunk_documents
  constructor
  · rw [List.map_map]
    have hcomp : (Prod.snd ∘ fun p : Nat × Document => (p.2, p.1)) =
        Prod.fst := rfl
    rw [hcomp, List.enum_map_fst]
  · rw [List.map_map]
    have hcomp : (Prod.fst ∘ fun p : Nat × Document => (p.2, p.1)) =
        Prod.snd := rfl
    rw [hcomp, List.enum_map_snd]

/-- Counterexample to C9 as stated: in a batch of two documents of one chunk
each, the first chunk of the second document receives position 1, not a
position restarting at 0. -/
theorem chunk_documents_position_not_restarting :
    DocumentIngestion.chunk_documents (fun d => [d]) [sampleDoc, sampleDoc2] =
      [(sampleDoc, 0), (sampleDoc2, 1)] ∧ (1 : Nat) ≠ 0 := by
  exact ⟨by decide, by decide⟩

/-- C3: a query against an uninitialized session (no store in memory, none on
disk) does not raise: it returns the soft failure result with success false,
no sources and the guidance message, and the only session state it changes
is the total-queries counter. -/
theorem query_uninitialized_soft_failure (bot : RAGChatbot) (q m : String)
    (uh : Bool) (k : Option Nat)
    (h1 : bot.vs_manager.vector_store = none)
    (h2 : bot.vs_manager.disk = none) :
    ((bot.query q uh m k).2.success = false) ∧
    ((bot.query q uh m k).2.sources = []) ∧
    ((bot.query q uh m k).2.answer =
      "No knowledge base found. Please initialize with documents first.") ∧
    ((bot.query q uh m k).1.chat_history = bot.chat_history) ∧
    ((bot.query q uh m k).1.vs_manager = bot.vs_manager) ∧
    ((bot.query q uh m k).1.stats.total_queries =
      bot.stats.total_queries + 1) ∧
    ((bot.query q uh m k).1.stats.successful_retrievals =
      bot.stats.successful_retrievals) ∧
    ((bot.query q uh m k).1.stats.average_context_length =
      bot.stats.average_context_length) := by
  simp [RAGChatbot.query, VectorStoreManager.load_vector_store, h1, h2]

/-- Witness for C3 at the fresh sample session. -/
theorem query_uninitialized_soft_failure_witness :
    (freshBot.vs_manager.vector_store = none) ∧
    (freshBot.vs_manager.disk = none) ∧
    (((freshBot.query "q" true "basic" none).2.success = false) ∧
      ((freshBot.query "q" true "basic" none).2.sources = []) ∧
      ((freshBot.query "q" true "basic" none).2.answer =
        "No knowledge base found. Please initialize with documents first.") ∧
      ((freshBot.query "q" true "basic" none).1.chat_history =
        freshBot.chat_history) ∧
      ((freshBot.query "q" true "basic" none).1.vs_manager =
        freshBot.vs_manager) ∧
      ((freshBot.query "q" true "basic" none).1.stats.total_queries =
        freshBot.stats.total_queries + 1) ∧
      ((freshBot.query "q" true "basic" none).1.stats.successful_retrievals =
        freshBot.stats.successful_retrievals) ∧
      ((freshBot.query "q" true "basic" none).1.stats.average_context_length =
        freshBot.stats.average_context_length)) :=
  ⟨rfl, rfl,
    query_uninitialized_soft_failure freshBot "q" "basic" true none rfl rfl⟩

/-- C8: reset clears the vector store (memory and disk), the conversation
history and all statistics counters together, and a query issued right after
reset takes the soft no-knowledge-base failure path. -/
theorem reset_clears_everything (bot : RAGChatbot) (q m : String) (uh : Bool)
    (k : Option Nat) :
    (bot.reset_knowledge_base.vs_manager.vector_store = none) ∧
    (bot.reset_knowledge_base.vs_manager.disk = none) ∧
    (bot.reset_knowledge_base.chat_history = []) ∧
    (bot.reset_knowledge_base.stats.total_queries = 0) ∧
    (bot.reset_knowledge_base.stats.successful_retrievals = 0) ∧
    (bot.reset_knowledge_base.stats.average_context_length = 0) ∧
    ((bot.reset_knowledge_base.query q uh m k).2.success = false) ∧
    ((bot.reset_knowledge_base.query q uh m k).2.sources = []) ∧
    ((bot.reset_knowledge_base.query q uh m k).2.answer =
      "No knowledge base found. Please initialize with documents first.") := by
  simp [RAGChatbot.reset_knowledge_base, RAGChatbot.clear_history,
    VectorStoreManager.delete_vector_store, RAGChatbot.query,
    VectorStoreManager.load_vector_store]

/-- C7: when the rewrite of the question into a standalone search query
fails (the model errors on the rephrase prompt), the pipeline silently falls
back to the original question: rephrase_question returns the question
unmodified, the query still succeeds, and retrieval (context and sources)
is performed with the original question. -/
theorem rephrase_failure_falls_back (bot : RAGChatbot) (question m : String)
    (k : Option Nat) (s : Chroma) (e : String)
    (hh : bot.chat_history ≠ [])
    (hs : bot.vs_manager.vector_store = some s)
    (he : bot.llm_manager.llm (rephrasePrompt question bot.chat_history) =
      Except.error e) :
    (bot.llm_manager.rephrase_question question bot.chat_history =
      question) ∧
    ((bot.query question true m k).2.success = true) ∧
    ((bot.query question true m k).2.context =
      some (get_context_string
        (bot.retrieveDocuments bot.vs_manager s m question k))) ∧
    ((bot.query question true m k).2.sources =
      (bot.retrieveDocuments bot.vs_manager s m question k).map (fun d =>
        ({ filename := d.filename, page := d.page,
           content_preview := d.page_content.take 150 ++ "..." } :
          Source))) := by
  have hne : bot.chat_history.isEmpty = false := by
    cases hcase : bot.chat_history with
    | nil => exact absurd hcase hh
    | cons a l => rfl
  have hrq : bot.llm_manager.rephrase_question question bot.chat_history =
      question := by
    unfold LLMManager.rephrase_question
    rw [hne, he]
    simp
  refine ⟨hrq, ?_, ?_, ?_⟩ <;>
    simp [RAGChatbot.query, hs, hne, hrq]

/-- The streaming generator body before the post-loop update touches neither
the conversation history nor the statistics: whenever it runs to the point
of producing the stream, the intermediate session differs from the initial
one only in the loaded store handle. -/
theorem query_streaming_run_char (bot : RAGChatbot) (q : String) (uh : Bool)
    (k : Option Nat) :
    ∀ x, bot.query_streaming_run q uh k = Except.ok x →
      x.1.chat_history = bot.chat_history ∧ x.1.stats = bot.stats := by
  intro x hx
  unfold RAGChatbot.query_streaming_run at hx
  rcases hv : bot.vs_manager.vector_store with _ | s
  · rcases hd : bot.vs_manager.disk with _ | s2
    · simp [VectorStoreManager.load_vector_store, hv, hd] at hx
    · simp only [VectorStoreManager.load_vector_store, hv, hd,
        Except.ok.injEq] at hx
      subst hx
      exact ⟨rfl, rfl⟩
  · simp only [hv, Except.ok.injEq] at hx
    subst hx
    exact ⟨rfl, rfl⟩

/-- The post-drain update of the streaming call: with history enabled the
complete question/answer pair is appended in one step (never a lone half),
with history disabled nothing is appended, and in either case the statistics
are left untouched. -/
theorem query_streaming_drained_char (bot : RAGChatbot) (q : String)
    (uh : Bool) (k : Option Nat) :
    ∀ b, bot.query_streaming_drained q uh k = Except.ok b →
      (uh = true → ∃ a, b.chat_history =
        bot.chat_history ++ [Message.human q, Message.ai a]) ∧
      (uh = false → b.chat_history = bot.chat_history) ∧
      b.stats = bot.stats := by
  intro b hb
  unfold RAGChatbot.query_streaming_drained at hb
  rcases hr : bot.query_streaming_run q uh k with e | x
  · rw [hr] at hb
    cases hb
  · rw [hr] at hb
    obtain ⟨h1, h2⟩ := query_streaming_run_char bot q uh k x hr
    cases uh with
    | false =>
        simp only [Bool.false_eq_true, if_false, Except.ok.injEq] at hb
        subst hb
        exact ⟨fun h => absurd h (by decide), fun _ => h1, h2⟩
    | true =>
        simp only [if_true, Except.ok.injEq] at hb
        subst hb
        refine ⟨fun _ => ⟨x.2.2, ?_⟩, fun h => absurd h (by decide), h2⟩
        simp [h1]

/-- C10 (amended): a streaming answer call modifies neither the conversation
history nor the session statistics before the fragment stream is fully
drained (abandoning the stream leaves both untouched, so no lone half of a
turn pair is ever appended); once fully drained and with history enabled the
complete question/answer pair is appended in one step, but the session
statistics are not updated at all by the streaming variant (unlike the
non-streaming one). -/
theorem streaming_updates_deferred (bot : RAGChatbot) (q : String)
    (uh : Bool) (k : Option Nat) :
    (∀ b, bot.query_streaming_abandoned q uh k = Except.ok b →
      b.chat_history = bot.chat_history ∧ b.stats = bot.stats) ∧
    (∀ b, bot.query_streaming_drained q true k = Except.ok b →
      (∃ a, b.chat_history =
        bot.chat_history ++ [Message.human q, Message.ai a]) ∧
      b.stats = bot.stats) ∧
    (∀ b, bot.query_streaming_drained q false k = Except.ok b →
      b.chat_history = bot.chat_history ∧ b.stats = bot.stats) := by
  refine ⟨?_, ?_, ?_⟩
  · intro b hb
    unfold RAGChatbot.query_streaming_abandoned at hb
    rcases hr : bot.query_streaming_run q uh k with e | x
    · rw [hr] at hb
      cases hb
    · rw [hr] at hb
      simp only [Except.map, Except.ok.injEq] at hb
      subst hb
      exact query_streaming_run_char bot q uh k x hr
  · intro b hb
    obtain ⟨h1, _, h3⟩ := query_streaming_drained_char bot q true k b hb
    exact ⟨h1 rfl, h3⟩
  · intro b hb
    obtain ⟨_, h2, h3⟩ := query_streaming_drained_char bot q false k b hb
    exact ⟨h2 rfl, h3⟩

/-- The session produced by draining a sample streaming call on the ready
sample session. -/
def drainedBotSample : RAGChatbot :=
  match readyBot.query_streaming_drained "q" true none with
  | Except.ok b => b
  | Except.error _ => freshBot

/-- Witness for C10 at the ready sample session: the drained streaming call
appended exactly one whole pair and left the statistics untouched. -/
theorem streaming_updates_deferred_witness :
    ((∃ a, drainedBotSample.chat_history =
        readyBot.chat_history ++ [Message.human "q", Message.ai a]) ∧
      drainedBotSample.stats = readyBot.stats) :=
  (streaming_updates_deferred readyBot "q" true none).2.1 drainedBotSample rfl

/-- Counterexample to C10 as stated: after a fully drained streaming call
the total-queries counter is still 0, while the claim requires the
statistics to be updated exactly as in the non-streaming variant, which
increments it to 1. -/
theorem streaming_statistics_not_updated :
    ((readyBot.query_streaming_drained "q" true none).map
        (fun b => b.stats.total_queries) = Except.ok 0) ∧
    ((readyBot.query "q" true "basic" none).1.stats.total_queries = 1) ∧
    (0 : Nat) ≠ 1 := by
  refine ⟨rfl, rfl, by decide⟩

/-- A five-pair (ten-message) conversation history. -/
def fullHistory : List Message :=
  [Message.human "q1", Message.ai "a1", Message.human "q2", Message.ai "a2",
   Message.human "q3", Message.ai "a3", Message.human "q4", Message.ai "a4",
   Message.human "q5", Message.ai "a5"]

/-- The ready sample session with a full ten-message history. -/
def fullBot : RAGChatbot := { readyBot with chat_history := fullHistory }


/-- Trimming an even, within-bound history extended by one whole pair keeps
the length even and within the ten-message bound, and the result is a suffix
of the extended history. -/
theorem trim_append_pair (h : List Message) (x y : Message)
    (hL : h.length % 2 = 0) (hle : h.length ≤ 10) :
    Even (if (h ++ [x, y]).length > 10
          then (h ++ [x, y]).drop ((h ++ [x, y]).length - 10)
          else h ++ [x, y]).length ∧
    (if (h ++ [x, y]).length > 10
     then (h ++ [x, y]).drop ((h ++ [x, y]).length - 10)
     else h ++ [x, y]).length ≤ 10 ∧
    List.IsSuffix
      (if (h ++ [x, y]).length > 10
       then (h ++ [x, y]).drop ((h ++ [x, y]).length - 10)
       else h ++ [x, y]) (h ++ [x, y]) := by
  split
  · refine ⟨?_, ?_, List.drop_suffix _ _⟩
    · rw [Nat.even_iff]
      simp only [List.length_drop, List.length_append, List.length_cons,
        List.length_nil]
      omega
    · simp only [List.length_drop, List.length_append, List.length_cons,
        List.length_nil]
      omega
  · rename_i hcond
    simp only [List.length_append, List.length_cons, List.length_nil,
      gt_iff_lt, not_lt] at hcond
    refine ⟨?_, ?_, List.suffix_refl _⟩
    · rw [Nat.even_iff]
      simp only [List.length_append, List.length_cons, List.length_nil]
      omega
    · simp only [List.length_append, List.length_cons, List.length_nil]
      omega

/-- After a non-streaming query the history is either unchanged (and then
the call failed or ran without history) or it is the history extended by the
complete question/answer pair and trimmed to the last ten messages. -/
theorem query_history_form (bot : RAGChatbot) (q m : String) (uh : Bool)
    (k : Option Nat) :
    ((bot.query q uh m k).1.chat_history = bot.chat_history ∧
      ((bot.query q uh m k).2.success = false ∨ uh = false)) ∨
    (uh = true ∧ ∃ a, (bot.query q uh m k).1.chat_history =
      (if (bot.chat_history ++ [Message.human q, Message.ai a]).length > 10
       then (bot.chat_history ++ [Message.human q, Message.ai a]).drop
         ((bot.chat_history ++ [Message.human q, Message.ai a]).length - 10)
       else bot.chat_history ++ [Message.human q, Message.ai a])) := by
  rcases hv : bot.vs_manager.vector_store with _ | s
  · rcases hd : bot.vs_manager.disk with _ | s2
    · refine Or.inl ⟨?_, Or.inl ?_⟩ <;>
        simp [RAGChatbot.query, VectorStoreManager.load_vector_store, hv, hd]
    · cases uh with
      | false =>
          refine Or.inl ⟨?_, Or.inr rfl⟩
          simp [RAGChatbot.query, VectorStoreManager.load_vector_store,
            hv, hd]
      | true =>
          refine Or.inr ⟨rfl, ?_⟩
          simp only [RAGChatbot.query,
            VectorStoreManager.load_vector_store, hv, hd]
          exact ⟨_, rfl⟩
  · cases uh with
    | false =>
        refine Or.inl ⟨?_, Or.inr rfl⟩
        simp [RAGChatbot.query, hv]
    | true =>
        refine Or.inr ⟨rfl, ?_⟩
        simp only [RAGChatbot.query, hv]
        exact ⟨_, rfl⟩

/-- C2 (amended): for every non-streaming answer call on a session whose
history is even and within the ten-message bound, the history stays even and
within the bound, and on a successful history-enabled call the new history
is a suffix of the old history extended by the complete question/answer pair
(strict FIFO, pair-aligned eviction); the streaming variant appends the pair
whole (so the history stays even and pair-aligned) but performs no eviction,
so after a drained streaming call the history can exceed ten messages. -/
theorem conversation_history_bounded (bot : RAGChatbot) (q m : String)
    (uh : Bool) (k : Option Nat)
    (hev : Even bot.chat_history.length)
    (hle : bot.chat_history.length ≤ 10) :
    (Even (bot.query q uh m k).1.chat_history.length ∧
      (bot.query q uh m k).1.chat_history.length ≤ 10) ∧
    ((bot.query q uh m k).2.success = true → uh = true →
      ∃ a, List.IsSuffix ((bot.query q uh m k).1.chat_history)
        (bot.chat_history ++ [Message.human q, Message.ai a])) ∧
    (∀ b, bot.query_streaming_drained q true k = Except.ok b →
      Even b.chat_history.length ∧
      ∃ a, b.chat_history =
        bot.chat_history ++ [Message.human q, Message.ai a]) := by
  have hL : bot.chat_history.length % 2 = 0 := Nat.even_iff.mp hev
  refine ⟨?_, ?_, ?_⟩
  · rcases query_history_form bot q m uh k with ⟨hsame, _⟩ | ⟨_, a, ha⟩
    · rw [hsame]
      exact ⟨hev, hle⟩
    · rw [ha]
      have htrim := trim_append_pair bot.chat_history (Message.human q)
        (Message.ai a) hL hle
      exact ⟨htrim.1, htrim.2.1⟩
  · intro hsucc huh
    rcases query_history_form bot q m uh k with ⟨_, hfail | hnouse⟩ |
        ⟨_, a, ha⟩
    · rw [hsucc] at hfail
      cases hfail
    · rw [huh] at hnouse
      cases hnouse
    · rw [ha]
      exact ⟨a, (trim_append_pair bot.chat_history (Message.human q)
        (Message.ai a) hL hle).2.2⟩
  · intro b hb
    obtain ⟨h1, _, _⟩ := query_streaming_drained_char bot q true k b hb
    obtain ⟨a, ha⟩ := h1 rfl
    refine ⟨?_, ⟨a, ha⟩⟩
    rw [ha, Nat.even_iff]
    simp only [List.length_append, List.length_cons, List.length_nil]
    omega

/-- Witness for C2 at the ready sample session with one prior pair in the
history. -/
theorem conversation_history_bounded_witness :
    Even ([Message.human "x", Message.ai "y"] : List Message).length ∧
    ([Message.human "x", Message.ai "y"] : List Message).length ≤ 10 ∧
    (let bot : RAGChatbot :=
      { readyBot with chat_history := [Message.human "x", Message.ai "y"] }
     (Even (bot.query "q" true "basic" none).1.chat_history.length ∧
        (bot.query "q" true "basic" none).1.chat_history.length ≤ 10) ∧
      ((bot.query "q" true "basic" none).2.success = true → true = true →
        ∃ a, List.IsSuffix ((bot.query "q" true "basic" none).1.chat_history)
          (bot.chat_history ++ [Message.human "q", Message.ai a])) ∧
      (∀ b, bot.query_streaming_drained "q" true none = Except.ok b →
        Even b.chat_history.length ∧
        ∃ a, b.chat_history =
          bot.chat_history ++ [Message.human "q", Message.ai a])) :=
  ⟨by decide, by decide,
    conversation_history_bounded
      { readyBot with chat_history := [Message.human "x", Message.ai "y"] }
      "q" "basic" true none (by decide) (by decide)⟩

/-- Counterexample to C2 as stated: a fully drained streaming answer call on
a session with a full ten-message history leaves twelve messages in the
history, exceeding the ten-turn bound the claim asserts for the streaming
variant as well. -/
theorem streaming_history_exceeds_bound :
    ((fullBot.query_streaming_drained "q" true none).map
        (fun b => b.chat_history.length) = Except.ok 12) ∧ ¬ (12 ≤ 10) := by
  exact ⟨rfl, by decide⟩


/-- The incremental-mean recurrence is exact over the rationals: multiplying
the updated average by the incremented count recovers the previous sum plus
the new value. -/
theorem incremental_mean_step (avg L : ℚ) (n : Nat) :
    (avg * (((n + 1 : Nat) : ℚ) - 1) + L) / ((n + 1 : Nat) : ℚ) *
      ((n + 1 : Nat) : ℚ) = avg * (n : ℚ) + L := by
  rw [div_mul_cancel₀]
  · push_cast
    ring
  · exact_mod_cast Nat.succ_ne_zero n

/-- One successful (store-present) query step: the store handle is
unchanged, the total-queries counter goes up by one, a context is always
produced, and the running average satisfies the exact incremental-mean
recurrence with the already incremented total query count as divisor. -/
theorem query_success_step (bot : RAGChatbot) (s : Chroma) (q m : String)
    (uh : Bool) (k : Option Nat)
    (hs : bot.vs_manager.vector_store = some s) :
    ((bot.query q uh m k).1.vs_manager = bot.vs_manager) ∧
    ((bot.query q uh m k).1.stats.total_queries =
      bot.stats.total_queries + 1) ∧
    ((bot.query q uh m k).2.context ≠ none) ∧
    ((bot.query q uh m k).1.stats.average_context_length *
        ((bot.query q uh m k).1.stats.total_queries : ℚ) =
      bot.stats.average_context_length * (bot.stats.total_queries : ℚ) +
        ctxLen (bot.query q uh m k).2) := by
  simp only [RAGChatbot.query, hs]
  refine ⟨trivial, ?_, ?_, ?_⟩
  · split <;> split <;> rfl
  · simp [ctxLen]
  · simp only [ctxLen]
    split <;> split <;> exact incremental_mean_step _ _ _

/-- Over any run of non-streaming queries against a session whose store is
present, the total-queries counter advances by the number of calls, every
result carries a context, and the running average times the final total
equals the previous scaled average plus the sum of the produced context
lengths. -/
theorem runTrace_stats (qs : List QueryCall) :
    ∀ (bot : RAGChatbot) (s : Chroma),
      bot.vs_manager.vector_store = some s →
      ((bot.runTrace qs).1.stats.total_queries =
        bot.stats.total_queries + qs.length) ∧
      ((bot.runTrace qs).1.stats.average_context_length *
          (((bot.runTrace qs).1.stats.total_queries : Nat) : ℚ) =
        bot.stats.average_context_length *
            ((bot.stats.total_queries : Nat) : ℚ) +
          ((bot.runTrace qs).2.map ctxLen).sum) ∧
      (∀ r ∈ (bot.runTrace qs).2, r.context ≠ none) := by
  induction qs with
  | nil =>
      intro bot s hs
      simp [RAGChatbot.runTrace]
  | cons c cs ih =>
      intro bot s hs
      obtain ⟨hvs, htot, hctx, havg⟩ := query_success_step bot s c.question
        c.retrieval_method c.use_history c.k hs
      have hs' : (bot.query c.question c.use_history c.retrieval_method
          c.k).1.vs_manager.vector_store = some s := by
        rw [hvs]
        exact hs
      obtain ⟨iht, iha, ihc⟩ := ih
        (bot.query c.question c.use_history c.retrieval_method c.k).1 s hs'
      refine ⟨?_, ?_, ?_⟩
      · simp only [RAGChatbot.runTrace, List.length_cons]
        rw [iht, htot]
        omega
      · simp only [RAGChatbot.runTrace, List.map_cons, List.sum_cons]
        rw [iha, havg]
        ring
      · intro r hr
        simp only [RAGChatbot.runTrace, List.mem_cons] at hr
        rcases hr with rfl | hr
        · exact hctx
        · exact ihc r hr

/-- C1 (amended): starting from zeroed statistics, over any sequence of
queries that all reach retrieval (the knowledge base is present), the
total-queries counter equals the number of queries, every query observed a
context, and the running average times that count equals the sum of the
observed context lengths, i.e. the average is their exact arithmetic mean.
In general the divisor of each incremental update is the total-queries
counter, which also counts soft-failure queries that observed no context. -/
theorem average_context_length_is_mean (bot : RAGChatbot) (s : Chroma)
    (qs : List QueryCall)
    (hs : bot.vs_manager.vector_store = some s)
    (h0 : bot.stats.total_queries = 0)
    (ha : bot.stats.average_context_length = 0) :
    ((bot.runTrace qs).1.stats.total_queries = qs.length) ∧
    (∀ r ∈ (bot.runTrace qs).2, r.context ≠ none) ∧
    ((bot.runTrace qs).1.stats.average_context_length * (qs.length : ℚ) =
      ((bot.runTrace qs).2.map ctxLen).sum) ∧
    (qs ≠ [] → (bot.runTrace qs).1.stats.average_context_length =
      ((bot.runTrace qs).2.map ctxLen).sum / (qs.length : ℚ)) := by
  obtain ⟨h1, h2, h3⟩ := runTrace_stats qs bot s hs
  rw [h0] at h1
  rw [h0, ha] at h2
  rw [Nat.zero_add] at h1
  rw [h1] at h2
  simp only [Nat.cast_zero, mul_zero, zero_add] at h2
  refine ⟨h1, h3, h2, ?_⟩
  intro hne
  have hlen0 : qs.length ≠ 0 := fun h => hne (List.length_eq_zero.mp h)
  have hlen : ((qs.length : Nat) : ℚ) ≠ 0 := Nat.cast_ne_zero.mpr hlen0
  rw [eq_div_iff hlen]
  exact h2

/-- A one-element query run used by the statistics witness. -/
def sampleCalls : List QueryCall :=
  [{ question := "q", use_history := false, retrieval_method := "basic",
     k := none }]

/-- Witness for C1 at the ready sample session and a single query. -/
theorem average_context_length_is_mean_witness :
    ((readyBot.runTrace sampleCalls).1.stats.total_queries =
      sampleCalls.length) ∧
    (∀ r ∈ (readyBot.runTrace sampleCalls).2, r.context ≠ none) ∧
    ((readyBot.runTrace sampleCalls).1.stats.average_context_length *
        (sampleCalls.length : ℚ) =
      ((readyBot.runTrace sampleCalls).2.map ctxLen).sum) ∧
    (sampleCalls ≠ [] →
      (readyBot.runTrace sampleCalls).1.stats.average_context_length =
        ((readyBot.runTrace sampleCalls).2.map ctxLen).sum /
          (sampleCalls.length : ℚ)) :=
  average_context_length_is_mean readyBot sampleChroma sampleCalls rfl rfl rfl

/-- The first step of the statistics counterexample: a query against the
uninitialized fresh session (soft failure, no context observed). -/
def cexStep1 : RAGChatbot × QueryResult :=
  freshBot.query "q1" false "basic" none

/-- The session after the failed first query, once a knowledge base has been
created. -/
def cexBot1 : RAGChatbot :=
  { cexStep1.1 with
      vs_manager := cexStep1.1.vs_manager.create_vector_store sampleChroma }

/-- The second step of the statistics counterexample: a successful query. -/
def cexStep2 : RAGChatbot × QueryResult :=
  cexBot1.query "q2" false "basic" none

/-- Counterexample to C1 as stated: after a soft-failure query (no context
observed) followed by one successful query whose context is 93 characters
long, the running average is 93 / 2, not the arithmetic mean 93 of the
single observed context length: the incremental update divides by the
total-queries counter, which also counts the query whose context length was
never observed. -/
theorem average_divisor_counts_unobserved_queries :
    (cexStep1.2.context = none) ∧
    (cexStep2.2.context = some (get_context_string [sampleDoc, sampleDoc2])) ∧
    ((get_context_string [sampleDoc, sampleDoc2]).length = 93) ∧
    (cexStep2.1.stats.total_queries = 2) ∧
    (cexStep2.1.stats.average_context_length = 93 / 2) ∧
    ((93 : ℚ) / 2 ≠ 93) := by
  refine ⟨rfl, rfl, rfl, rfl, ?_, by norm_num⟩
  have h : cexStep2.1.stats.average_context_length =
      ((0 : ℚ) * (((2 : Nat) : ℚ) - 1) + (((93 : Nat)) : ℚ)) /
        (((2 : Nat)) : ℚ) := rfl
  rw [h]
  push_cast
  norm_num

/-- A ready session with one prior pair in the history whose language model
backend is down, so every rephrase attempt errors. -/
def c7Bot : RAGChatbot :=
  { readyBot with
      chat_history := [Message.human "x", Message.ai "y"]
      llm_manager := downLLM }

/-- Witness for C7 at a session whose model errors on every prompt. -/
theorem rephrase_failure_falls_back_witness :
    (c7Bot.llm_manager.rephrase_question "q" c7Bot.chat_history = "q") ∧
    ((c7Bot.query "q" true "basic" none).2.success = true) ∧
    ((c7Bot.query "q" true "basic" none).2.context =
      some (get_context_string
        (c7Bot.retrieveDocuments c7Bot.vs_manager sampleChroma "basic" "q"
          none))) ∧
    ((c7Bot.query "q" true "basic" none).2.sources =
      (c7Bot.retrieveDocuments c7Bot.vs_manager sampleChroma "basic" "q"
          none).map (fun d =>
        ({ filename := d.filename, page := d.page,
           content_preview := d.page_content.take 150 ++ "..." } :
          Source))) :=
  rephrase_failure_falls_back c7Bot "q" "basic" none sampleChroma "down"
    (by decide) rfl rfl
